import Mathlib

/-!
Verification development for the VDATABPro virtual machine monitor.

Shallow embedding of the device models under `src/core_engine/devices`
(PIC pair, PIT, NE2000 NIC) and of the VM-level interrupt injection in
`src/core_engine/hypervisor/kvm.go`, with theorems checking the
natural-language specification against the code.

Machine integers are modelled as `Nat`.  Go's bit operations translate as:
`x | y` to `x ||| y`, `x & y` to `x &&& y`, `x &^ y` (AND NOT) to
`andNot x y`, `x &= ^v` to `andNot x v`, `(x >> i) & 1 == 0` to
`Nat.testBit x i = false`, and wrapping `uint8`/`uint16` arithmetic carries
an explicit `% 256` / `% 65536`.
-/

namespace VDB

/-! ## 8259A PIC pair — `src/unnamed/part_002` (`pic.go`) with constants from
`src/unnamed/part_001` (`pic_constants.go`). -/

/-- Go's `x &^ y` (AND NOT) on `uint8` values: `y ^^^ 255` is the 8-bit
complement, matching `&^` exactly for operands below 256. -/
def andNot (x y : Nat) : Nat := x &&& (y ^^^ 255)

/-- `PIC_ICW1_IC4 = 0x01`. -/
def PIC_ICW1_IC4 : Nat := 0x01

/-- `PIC_ICW1_SNGL = 0x02`. -/
def PIC_ICW1_SNGL : Nat := 0x02

/-- `PIC_ICW1_LTIM = 0x08`. -/
def PIC_ICW1_LTIM : Nat := 0x08

/-- `PIC_ICW1_INIT = 0x10`. -/
def PIC_ICW1_INIT : Nat := 0x10

/-- `PIC_ICW4_AEOI = 0x02`. -/
def PIC_ICW4_AEOI : Nat := 0x02

/-- `PIC_ICW4_SFNM = 0x10`. -/
def PIC_ICW4_SFNM : Nat := 0x10

/-- `PIC_OCW2_EOI_CMD = 0x20`. -/
def PIC_OCW2_EOI_CMD : Nat := 0x20

/-- `PIC_OCW2_SL_CMD = 0x40`. -/
def PIC_OCW2_SL_CMD : Nat := 0x40

/-- `PIC_OCW3_RIS_CMD = 0x01`. -/
def PIC_OCW3_RIS_CMD : Nat := 0x01

/-- `PIC_OCW3_RR_CMD = 0x02`. -/
def PIC_OCW3_RR_CMD : Nat := 0x02

/-- `PIC_OCW3_POLL_CMD = 0x04`. -/
def PIC_OCW3_POLL_CMD : Nat := 0x04

/-- `PIC_MASTER_SLAVE_IRQ = 2`: master IRQ line wired to the slave PIC. -/
def PIC_MASTER_SLAVE_IRQ : Nat := 2

/-- State of one 8259A chip (`PICController` in `pic.go`). -/
structure PICController where
  isMaster : Bool
  offset : Nat
  imr : Nat
  irr : Nat
  isr : Nat
  icwCount : Nat
  expectOCW : Bool
  modeFlags : Nat
  sfnm : Bool
  autoEOI : Bool
  readRegSelect : Nat
deriving DecidableEq, Repr

/-- The master/slave pair (`PICDevice` in `pic.go`). -/
structure PICDevice where
  master : PICController
  slave : PICController
deriving DecidableEq, Repr

/-- `NewPICDevice`: both IMRs are `0xFF`, mode flags default to `PIC_ICW1_IC4`,
all other fields are Go zero values. -/
def NewPICDevice : PICDevice :=
  let base : PICController :=
    { isMaster := false, offset := 0, imr := 0xFF, irr := 0, isr := 0,
      icwCount := 0, expectOCW := false, modeFlags := PIC_ICW1_IC4,
      sfnm := false, autoEOI := false, readRegSelect := 0 }
  { master := { base with isMaster := true }, slave := base }

/-- `writeDataPort` (`pic.go` lines 144–177): IMR write when outside the ICW
sequence, otherwise ICW2/ICW3/ICW4 consumption. -/
def writeDataPort (pc : PICController) (val : Nat) : PICController :=
  if pc.icwCount = 0 ∨ pc.expectOCW then
    { pc with imr := val }
  else if pc.icwCount = 1 then
    let pc := { pc with offset := val }
    if (pc.modeFlags &&& PIC_ICW1_SNGL) ≠ 0 then
      if (pc.modeFlags &&& PIC_ICW1_IC4) = 0 then { pc with icwCount := 0 }
      else { pc with icwCount := 3 }
    else { pc with icwCount := pc.icwCount + 1 }
  else if pc.icwCount = 2 then
    if (pc.modeFlags &&& PIC_ICW1_IC4) = 0 then { pc with icwCount := 0 }
    else { pc with icwCount := pc.icwCount + 1 }
  else if pc.icwCount = 3 then
    { pc with modeFlags := pc.modeFlags ||| val,
              autoEOI := (val &&& PIC_ICW4_AEOI) ≠ 0,
              sfnm := (val &&& PIC_ICW4_SFNM) ≠ 0,
              icwCount := 0 }
  else pc

/-- Non-specific EOI on a single chip: clear the lowest-index ISR bit
(the inner loop of `processOCW2`). -/
def nonSpecificEOI (pc : PICController) : PICController :=
  match (List.range 8).find? (fun i => pc.isr.testBit i) with
  | some i => { pc with isr := andNot pc.isr (1 <<< i) }
  | none => pc

/-- `processOCW2` (`pic.go` lines 197–237).  The slave argument mirrors the Go
pointer: the master passes its slave, the slave passes `none`. -/
def processOCW2 (pc : PICController) (val : Nat) (slave : Option PICController) :
    PICController × Option PICController :=
  if (val &&& PIC_OCW2_EOI_CMD) ≠ 0 then
    if (val &&& PIC_OCW2_SL_CMD) ≠ 0 then
      let irqLine := val &&& 0x07
      if pc.isr.testBit irqLine then
        ({ pc with isr := andNot pc.isr (1 <<< irqLine) }, slave)
      else (pc, slave)
    else
      match (List.range 8).find? (fun i => pc.isr.testBit i) with
      | some i =>
        let pc := { pc with isr := andNot pc.isr (1 <<< i) }
        if pc.isMaster ∧ i = PIC_MASTER_SLAVE_IRQ ∧ slave.isSome then
          (pc, slave.map nonSpecificEOI)
        else (pc, slave)
      | none => (pc, slave)
  else (pc, slave)

/-- `processOCW3` (`pic.go` lines 240–257). -/
def processOCW3 (pc : PICController) (val : Nat) : PICController :=
  if (val &&& PIC_OCW3_POLL_CMD) ≠ 0 then pc
  else if (val &&& PIC_OCW3_RR_CMD) ≠ 0 then
    { pc with readRegSelect := (val &&& PIC_OCW3_RIS_CMD) >>> 1 }
  else pc

/-- `writeCommandPort` (`pic.go` lines 122–141): ICW1 reset, or OCW2/OCW3. -/
def writeCommandPort (pc : PICController) (val : Nat) (slave : Option PICController) :
    PICController × Option PICController :=
  if (val &&& PIC_ICW1_INIT) ≠ 0 then
    ({ pc with icwCount := 1, expectOCW := false, imr := 0, irr := 0, isr := 0,
               modeFlags := val &&& (PIC_ICW1_LTIM ||| PIC_ICW1_SNGL ||| PIC_ICW1_IC4),
               autoEOI := false, sfnm := false }, slave)
  else
    if (val &&& 0x18) = 0x08 then
      ({ processOCW3 pc val with expectOCW := true }, slave)
    else
      let (pc, slave) := processOCW2 pc val slave
      ({ pc with expectOCW := true }, slave)

/-- Device-level write to the master command port. -/
def masterCmd (p : PICDevice) (val : Nat) : PICDevice :=
  let (m, sl) := writeCommandPort p.master val (some p.slave)
  { master := m, slave := sl.getD p.slave }

/-- Device-level write to the slave command port. -/
def slaveCmd (p : PICDevice) (val : Nat) : PICDevice :=
  { p with slave := (writeCommandPort p.slave val none).1 }

/-- Device-level write to the master data port. -/
def masterData (p : PICDevice) (val : Nat) : PICDevice :=
  { p with master := writeDataPort p.master val }

/-- Device-level write to the slave data port. -/
def slaveData (p : PICDevice) (val : Nat) : PICDevice :=
  { p with slave := writeDataPort p.slave val }

/-- `RaiseIRQ` (`pic.go` lines 261–284). -/
def RaiseIRQ (p : PICDevice) (irqLine : Nat) : PICDevice :=
  if irqLine < 8 then
    if p.master.imr.testBit irqLine = false then
      { p with master := { p.master with irr := p.master.irr ||| (1 <<< irqLine) } }
    else p
  else if irqLine < 16 then
    let slaveIrq := irqLine - 8
    if p.slave.imr.testBit slaveIrq = false then
      let p := { p with slave := { p.slave with irr := p.slave.irr ||| (1 <<< slaveIrq) } }
      if p.master.imr.testBit PIC_MASTER_SLAVE_IRQ = false then
        { p with master := { p.master with irr := p.master.irr ||| (1 <<< PIC_MASTER_SLAVE_IRQ) } }
      else p
    else p
  else p

/-- `HasPendingInterrupts` (`pic.go` lines 287–317): slave path first
(early `return true`), then the master scan which includes the cascade bit. -/
def HasPendingInterrupts (p : PICDevice) : Bool :=
  let slaveActiveIRR := andNot p.slave.irr p.slave.imr
  let slaveHit :=
    slaveActiveIRR ≠ 0 ∧
    p.master.imr.testBit PIC_MASTER_SLAVE_IRQ = false ∧
    p.master.isr.testBit PIC_MASTER_SLAVE_IRQ = false ∧
    (List.range 8).any (fun i => slaveActiveIRR.testBit i && !p.slave.isr.testBit i)
  let masterActiveIRR := andNot p.master.irr p.master.imr
  let masterHit :=
    (List.range 8).any (fun i => masterActiveIRR.testBit i && !p.master.isr.testBit i)
  decide slaveHit || masterHit

/-- `GetInterruptVector` (`pic.go` lines 321–381).  Returns the vector (0 when
nothing is deliverable) together with the updated pair. -/
def GetInterruptVector (p : PICDevice) : Nat × PICDevice :=
  let masterPending := andNot p.master.irr p.master.imr
  match (List.range 8).find?
      (fun i => decide (i ≠ PIC_MASTER_SLAVE_IRQ) &&
                masterPending.testBit i && !p.master.isr.testBit i) with
  | some i =>
    let m := if p.master.autoEOI then p.master
             else { p.master with isr := p.master.isr ||| (1 <<< i) }
    let m := { m with irr := andNot m.irr (1 <<< i) }
    ((p.master.offset + i) % 256, { p with master := m })
  | none =>
    if masterPending.testBit PIC_MASTER_SLAVE_IRQ ∧
       p.master.isr.testBit PIC_MASTER_SLAVE_IRQ = false then
      let slavePending := andNot p.slave.irr p.slave.imr
      match (List.range 8).find?
          (fun i => slavePending.testBit i && !p.slave.isr.testBit i) with
      | some i =>
        let m := if p.master.autoEOI then p.master
                 else { p.master with isr := p.master.isr ||| (1 <<< PIC_MASTER_SLAVE_IRQ) }
        let sl := if p.slave.autoEOI then p.slave
                  else { p.slave with isr := p.slave.isr ||| (1 <<< i) }
        let sl := { sl with irr := andNot sl.irr (1 <<< i) }
        let m := if andNot sl.irr sl.imr = 0 then
                   { m with irr := andNot m.irr (1 <<< PIC_MASTER_SLAVE_IRQ) }
                 else m
        ((p.slave.offset + i) % 256, { master := m, slave := sl })
      | none => (0, p)
    else (0, p)

/-- `CheckForPendingInterrupts` (`kvm.go` lines 973–994), for the designated
interrupt sink (VCPU 0): query the PIC; inject the acquired vector only when
it is non-zero.  `some v` models an injection of vector `v`. -/
def CheckForPendingInterrupts (p : PICDevice) : Option Nat × PICDevice :=
  if HasPendingInterrupts p then
    let (vector, p) := GetInterruptVector p
    if vector ≠ 0 then (some vector, p) else (none, p)
  else (none, p)

/-- A fully initialized pair with vector offsets `mo`/`so`: ICW1 (cascade,
ICW4 needed), ICW2 = offset, ICW3, ICW4 = `0x01` (8086 mode, no auto-EOI),
for master then slave.  IMR is 0 after the sequence. -/
def initPair (mo so : Nat) : PICDevice :=
  let p := NewPICDevice
  let p := masterCmd p 0x11
  let p := masterData p mo
  let p := masterData p 0x04
  let p := masterData p 0x01
  let p := slaveCmd p 0x11
  let p := slaveData p so
  let p := slaveData p 0x02
  let p := slaveData p 0x01
  p

/-! ## NE2000 NIC — `src/core_engine/devices/ne2000.go` with constants from
the tail of `src/core_engine/devices/rtc.go`. -/

/-- `IODirectionIn = 0` (read from device). -/
def IODirectionIn : Nat := 0

/-- `IODirectionOut = 1` (write to device). -/
def IODirectionOut : Nat := 1

/-- `NE2000_BASE_PORT = 0x300`. -/
def NE2000_BASE_PORT : Nat := 0x300

/-- `ne2000PromSize = 32`. -/
def ne2000PromSize : Nat := 32

/-- `NE2000_MEM_SIZE = 16 * 1024`. -/
def NE2000_MEM_SIZE : Nat := 16 * 1024

/-- `NE2000_PAGE_SIZE = 256`. -/
def NE2000_PAGE_SIZE : Nat := 256

/-- `NE2000_TX_PAGE_START = 0x40`. -/
def NE2000_TX_PAGE_START : Nat := 0x40

/-- `NE2000_TX_BUF_PAGES = 6`. -/
def NE2000_TX_BUF_PAGES : Nat := 6

/-- `NE2000_ASIC_OFFSET_DATA = 0x10`. -/
def NE2000_ASIC_OFFSET_DATA : Nat := 0x10

/-- `NE2000_ASIC_OFFSET_RESET = 0x1F`. -/
def NE2000_ASIC_OFFSET_RESET : Nat := 0x1F

/-- Command-register bits `CR_STP, CR_STA, CR_TXP, CR_RD0, CR_RD1, CR_RD2,
CR_PS0, CR_PS1`. -/
def CR_STP : Nat := 0x01

/-- `CR_STA = 0x02`. -/
def CR_STA : Nat := 0x02

/-- `CR_TXP = 0x04`. -/
def CR_TXP : Nat := 0x04

/-- `CR_RD0 = 0x08`. -/
def CR_RD0 : Nat := 0x08

/-- `CR_RD1 = 0x10`. -/
def CR_RD1 : Nat := 0x10

/-- `CR_RD2 = 0x20`. -/
def CR_RD2 : Nat := 0x20

/-- `CR_PS0 = 0x40`. -/
def CR_PS0 : Nat := 0x40

/-- `CR_PS1 = 0x80`. -/
def CR_PS1 : Nat := 0x80

/-- `ISR_PRX = 0x01`. -/
def ISR_PRX : Nat := 0x01

/-- `ISR_PTX = 0x02`. -/
def ISR_PTX : Nat := 0x02

/-- `ISR_RXE = 0x04`. -/
def ISR_RXE : Nat := 0x04

/-- `ISR_TXE = 0x08`. -/
def ISR_TXE : Nat := 0x08

/-- `ISR_OVW = 0x10`. -/
def ISR_OVW : Nat := 0x10

/-- `ISR_RDC = 0x40`. -/
def ISR_RDC : Nat := 0x40

/-- `ISR_RST = 0x80`. -/
def ISR_RST : Nat := 0x80

/-- State of the NE2000 device (`NE2000Device` in `ne2000.go`).  The PROM and
packet RAM are modelled as functions from addresses to byte values; the PROM
is only ever read below `ne2000PromSize`. -/
structure NE2000 where
  command : Nat
  pageStart : Nat
  pageStop : Nat
  boundary : Nat
  txStatus : Nat
  txPageStart : Nat
  isr : Nat
  rxStatus : Nat
  rxConfig : Nat
  txConfig : Nat
  dataConfig : Nat
  imr : Nat
  macAddress : Fin 6 → Nat
  currPage : Nat
  promData : Nat → Nat
  packetRAM : Nat → Nat
  mar : Fin 8 → Nat
  dmaAddress : Nat
  dmaByteCount : Nat

/-- `NewNE2000Device` (`ne2000.go` lines 59–91): power-on defaults, PROM filled
with each MAC byte duplicated (`prom[2i] = prom[2i+1] = mac[i]`), `0xFF`
elsewhere. -/
def NewNE2000Device (mac : Fin 6 → Nat) : NE2000 :=
  { command := CR_STP ||| CR_RD2
    pageStart := NE2000_TX_PAGE_START + NE2000_TX_BUF_PAGES
    pageStop := (NE2000_MEM_SIZE / NE2000_PAGE_SIZE) % 256
    boundary := NE2000_TX_PAGE_START + NE2000_TX_BUF_PAGES
    txStatus := 0
    txPageStart := NE2000_TX_PAGE_START
    isr := ISR_RST
    rxStatus := 0
    rxConfig := 0x04
    txConfig := 0x00
    dataConfig := 0x58
    imr := 0x00
    macAddress := mac
    currPage := NE2000_TX_PAGE_START + NE2000_TX_BUF_PAGES
    promData := fun i => if h : i < 12 then mac ⟨i / 2, by omega⟩ else 0xFF
    packetRAM := fun _ => 0
    mar := fun _ => 0
    dmaAddress := 0
    dmaByteCount := 0 }

/-- `reset` (`ne2000.go` lines 151–166): restore power-on register values;
MAC, PROM and RAM are kept. -/
def reset (dev : NE2000) : NE2000 :=
  { dev with
    command := CR_STP ||| CR_RD2
    isr := ISR_RST
    imr := 0x00
    pageStart := NE2000_TX_PAGE_START + NE2000_TX_BUF_PAGES
    pageStop := (NE2000_MEM_SIZE / NE2000_PAGE_SIZE) % 256
    boundary := NE2000_TX_PAGE_START + NE2000_TX_BUF_PAGES
    currPage := NE2000_TX_PAGE_START + NE2000_TX_BUF_PAGES
    txPageStart := NE2000_TX_PAGE_START
    dataConfig := 0x58
    txConfig := 0x00
    rxConfig := 0x04 }

/-- `handleASICDataPort` (`ne2000.go` lines 170–208): PROM / remote-DMA read
through offset `0x10`.  Returns the updated device and the byte delivered on
an IN access. -/
def handleASICDataPort (dev : NE2000) (direction val : Nat) :
    Except String (NE2000 × Nat) :=
  if (dev.command &&& CR_RD2) ≠ 0 then
    if direction = IODirectionIn then .ok (dev, 0xFF) else .ok (dev, val)
  else if direction = IODirectionIn then
    let b := if dev.dmaAddress < ne2000PromSize then dev.promData dev.dmaAddress
             else 0xFF
    let dev := { dev with dmaAddress := (dev.dmaAddress + 1) % 65536 }
    let dev :=
      if dev.dmaByteCount > 0 then
        if dev.dmaByteCount - 1 = 0 then
          { dev with dmaByteCount := 0, isr := dev.isr ||| ISR_RDC,
                     command := dev.command ||| CR_RD2 }
        else { dev with dmaByteCount := dev.dmaByteCount - 1 }
      else dev
    .ok (dev, b)
  else .error "NE2000Device: Remote DMA Write to ASIC Data Port not fully implemented"

/-- `handleCommandRegister` (`ne2000.go` lines 211–267): CR read, or CR write
with the STP / STA / TXP action bits. -/
def handleCommandRegister (dev : NE2000) (direction val : Nat) :
    Except String (NE2000 × Nat) :=
  if direction = IODirectionIn then .ok (dev, dev.command)
  else
    let oldCommand := dev.command
    let newCommand := val
    let dev := { dev with command := newCommand }
    let dev :=
      if (newCommand &&& CR_STP) ≠ 0 ∧ (oldCommand &&& CR_STP) = 0 then
        { reset dev with command := CR_STP ||| CR_RD2 }
      else dev
    let dev :=
      if (newCommand &&& CR_STA) ≠ 0 ∧ (oldCommand &&& CR_STA) = 0 then
        { dev with command := andNot dev.command CR_STP,
                   isr := andNot dev.isr ISR_RST }
      else dev
    let dev :=
      if (newCommand &&& CR_TXP) ≠ 0 then
        { dev with command := andNot dev.command CR_TXP,
                   isr := dev.isr ||| ISR_PTX }
      else dev
    .ok (dev, val)

/-- `handlePage0IO` (`ne2000.go` lines 270–307). -/
def handlePage0IO (dev : NE2000) (offset direction val : Nat) :
    Except String (NE2000 × Nat) :=
  if offset = 0x01 then
    if direction = IODirectionOut then .ok ({ dev with pageStart := val }, val)
    else .ok (dev, 0)
  else if offset = 0x02 then
    if direction = IODirectionOut then .ok ({ dev with pageStop := val }, val)
    else .ok (dev, 0)
  else if offset = 0x03 then
    if direction = IODirectionOut then .ok ({ dev with boundary := val }, val)
    else .ok (dev, dev.boundary)
  else if offset = 0x04 then
    if direction = IODirectionOut then .ok ({ dev with txPageStart := val }, val)
    else .ok (dev, dev.txStatus)
  else if offset = 0x05 then
    .ok (dev, if direction = IODirectionOut then val else 0)
  else if offset = 0x06 then
    .ok (dev, if direction = IODirectionOut then val else 0)
  else if offset = 0x07 then
    if direction = IODirectionIn then .ok (dev, dev.isr)
    else .ok ({ dev with isr := andNot dev.isr val }, val)
  else if offset = 0x08 then
    if direction = IODirectionOut then
      .ok ({ dev with dmaAddress := (dev.dmaAddress &&& 0xFF00) ||| val }, val)
    else .ok (dev, 0)
  else if offset = 0x09 then
    if direction = IODirectionOut then
      .ok ({ dev with dmaAddress := (dev.dmaAddress &&& 0x00FF) ||| (val <<< 8) }, val)
    else .ok (dev, 0)
  else if offset = 0x0A then
    if direction = IODirectionOut then
      .ok ({ dev with dmaByteCount := (dev.dmaByteCount &&& 0xFF00) ||| val }, val)
    else .ok (dev, 0)
  else if offset = 0x0B then
    if direction = IODirectionOut then
      .ok ({ dev with dmaByteCount := (dev.dmaByteCount &&& 0x00FF) ||| (val <<< 8) }, val)
    else .ok (dev, 0)
  else if offset = 0x0C then
    if direction = IODirectionOut then .ok ({ dev with rxConfig := val }, val)
    else .ok (dev, dev.rxStatus)
  else if offset = 0x0D then
    if direction = IODirectionOut then .ok ({ dev with txConfig := val }, val)
    else .ok (dev, 0)
  else if offset = 0x0E then
    if direction = IODirectionOut then .ok ({ dev with dataConfig := val }, val)
    else .ok (dev, 0)
  else if offset = 0x0F then
    if direction = IODirectionOut then .ok ({ dev with imr := val }, val)
    else .ok (dev, 0)
  else .error "NE2000Device: Unhandled Page 0 IO"

/-- `handlePage1IO` (`ne2000.go` lines 310–343). -/
def handlePage1IO (dev : NE2000) (offset direction val : Nat) :
    Except String (NE2000 × Nat) :=
  if h : offset - 1 < 6 ∧ 1 ≤ offset then
    let i : Fin 6 := ⟨offset - 1, h.1⟩
    if direction = IODirectionOut then
      .ok ({ dev with macAddress := Function.update dev.macAddress i val }, val)
    else .ok (dev, dev.macAddress i)
  else if offset = 0x07 then
    if direction = IODirectionOut then .ok ({ dev with currPage := val }, val)
    else .ok (dev, dev.currPage)
  else if h : 8 ≤ offset ∧ offset - 8 < 8 then
    let i : Fin 8 := ⟨offset - 8, h.2⟩
    if direction = IODirectionOut then
      .ok ({ dev with mar := Function.update dev.mar i val }, val)
    else .ok (dev, dev.mar i)
  else .error "NE2000Device: Unhandled Page 1 IO"

/-- `HandleIO` (`ne2000.go` lines 94–149): byte-wide dispatch over the reset
port, the ASIC data port, the common command register, and the paged register
file.  For IN accesses the returned `Nat` is the byte placed in `data[0]`. -/
def HandleIO (dev : NE2000) (port direction size val : Nat) :
    Except String (NE2000 × Nat) :=
  if size ≠ 1 then .error "NE2000Device: I/O size not supported"
  else
    let offset := port - NE2000_BASE_PORT
    if offset = NE2000_ASIC_OFFSET_RESET then
      if direction = IODirectionIn then .ok (dev, 0xFF)
      else .ok (reset dev, val)
    else if offset = NE2000_ASIC_OFFSET_DATA then
      handleASICDataPort dev direction val
    else
      let pageSelect := (dev.command &&& (CR_PS0 ||| CR_PS1)) >>> 6
      if offset = 0x00 then handleCommandRegister dev direction val
      else if pageSelect = 0 then handlePage0IO dev offset direction val
      else if pageSelect = 1 then handlePage1IO dev offset direction val
      else if pageSelect > 1 then handlePage0IO dev offset direction val
      else .error "NE2000Device: Unhandled page access"

/-! ## 8254 PIT — `pit.go` part of `src/unnamed/part_002`, constants from
`src/unnamed/part_001`. -/

/-- `PIT_RW_LATCH = 0x00`. -/
def PIT_RW_LATCH : Nat := 0x00

/-- `PIT_RW_LSB = 0x01`. -/
def PIT_RW_LSB : Nat := 0x01

/-- `PIT_RW_MSB = 0x02`. -/
def PIT_RW_MSB : Nat := 0x02

/-- `PIT_RW_LOHI = 0x03`. -/
def PIT_RW_LOHI : Nat := 0x03

/-- One PIT counter (`pitCounterState` in `pit.go`; the host-time field used
only for logging is omitted). -/
structure PitCounter where
  value : Nat
  latch : Nat
  reload : Nat
  mode : Nat
  rwMode : Nat
  bcdMode : Bool
deriving DecidableEq, Repr

/-- PIT device state (`PITDevice` in `pit.go`): three counters plus the
per-counter LSB/MSB read-write phase. -/
structure PITDevice where
  counters : Fin 3 → PitCounter
  readWriteLatch : Fin 3 → Nat

/-- `NewPITDevice` (`pit.go` lines 432–447): mode 3, LOHI, binary, zeroed. -/
def NewPITDevice : PITDevice :=
  { counters := fun _ =>
      { value := 0, latch := 0, reload := 0, mode := 0x3, rwMode := 0x3,
        bcdMode := false }
    readWriteLatch := fun _ => 0 }

/-- `writeCounterPort` (`pit.go` lines 507–541): data writes honouring the
counter's read/write mode; a write while the counter is in LATCH mode is
ignored. -/
def writeCounterPort (p : PITDevice) (index : Fin 3) (val : Nat) : PITDevice :=
  let c := p.counters index
  if c.rwMode = PIT_RW_LATCH then p
  else if c.rwMode = PIT_RW_LSB then
    let c1 := { c with reload := val, value := val }
    { p with counters := Function.update p.counters index c1 }
  else if c.rwMode = PIT_RW_MSB then
    let c1 := { c with reload := val <<< 8, value := val <<< 8 }
    { p with counters := Function.update p.counters index c1 }
  else if c.rwMode = PIT_RW_LOHI then
    if p.readWriteLatch index = 0 then
      let c1 := { c with reload := val }
      { p with counters := Function.update p.counters index c1,
               readWriteLatch := Function.update p.readWriteLatch index 1 }
    else
      let r := c.reload ||| (val <<< 8)
      let c1 := { c with reload := r, value := r }
      { p with counters := Function.update p.counters index c1,
               readWriteLatch := Function.update p.readWriteLatch index 0 }
  else p

/-- `readCounterPort` (`pit.go` lines 543–598): latched reads (LSB then MSB of
`latch`) when in LATCH mode, otherwise direct reads of `value` per the
read/write mode. -/
def readCounterPort (p : PITDevice) (index : Fin 3) : Nat × PITDevice :=
  let c := p.counters index
  if c.rwMode = PIT_RW_LATCH then
    if p.readWriteLatch index = 0 then
      (c.latch &&& 0xFF,
       { p with readWriteLatch := Function.update p.readWriteLatch index 1 })
    else
      ((c.latch >>> 8) &&& 0xFF,
       { p with readWriteLatch := Function.update p.readWriteLatch index 0 })
  else if c.rwMode = PIT_RW_LSB then (c.value &&& 0xFF, p)
  else if c.rwMode = PIT_RW_MSB then ((c.value >>> 8) &&& 0xFF, p)
  else if c.rwMode = PIT_RW_LOHI then
    if p.readWriteLatch index = 0 then
      (c.value &&& 0xFF,
       { p with readWriteLatch := Function.update p.readWriteLatch index 1 })
    else
      ((c.value >>> 8) &&& 0xFF,
       { p with readWriteLatch := Function.update p.readWriteLatch index 0 })
  else (c.value &&& 0xFF, p)

/-- `writeCommandPort` for the PIT (`pit.go` lines 600–642): parse
counter-select / read-write mode / operating mode / BCD; counter-select 3
(read-back) is acknowledged without effect; read-write mode 0 latches
`value` into `latch` and puts the counter into LATCH read mode. -/
def pitWriteCommandPort (p : PITDevice) (val : Nat) : PITDevice :=
  let counterIndex := (val >>> 6) &&& 0x3
  let rwMode := (val >>> 4) &&& 0x3
  let opMode := (val >>> 1) &&& 0x7
  let bcdMode := (val &&& 0x1) ≠ 0
  if h : counterIndex < 3 then
    let i : Fin 3 := ⟨counterIndex, h⟩
    let c := p.counters i
    if rwMode = PIT_RW_LATCH then
      let c1 := { c with latch := c.value, rwMode := PIT_RW_LATCH }
      { p with counters := Function.update p.counters i c1,
               readWriteLatch := Function.update p.readWriteLatch i 0 }
    else
      let c1 := { c with rwMode := rwMode, mode := opMode, bcdMode := bcdMode }
      { p with counters := Function.update p.counters i c1,
               readWriteLatch := Function.update p.readWriteLatch i 0 }
  else p

end VDB

namespace SpecNIC

/-- Modelled from the spec: the repository's full NE2000 engine (the second of
the "two overlapping implementations" of spec §9) is not under `src/` — only
its tests appear in `src/core_engine/devices/ne2000_test.go` (the
`example.com/v-architect` package half), while `ne2000.go`'s `CR_TXP` handler
is an explicit TODO stub.  Spec §3's "64 KiB on-card RAM array" gives the RAM
size used by the transmit bounds check of §4.5. -/
def specRAMSize : Nat := 65536

/-- Modelled from the spec: the register state of the missing transmit engine
(§4.5 "Command register" / "Transmit path").  `ram` maps addresses to byte
values; `cr`, `isr`, `imr`, `tpsr`, `tbcr0`, `tbcr1` are the registers the
transmit path reads and writes. -/
structure TxState where
  ram : Nat → Nat
  cr : Nat
  isr : Nat
  imr : Nat
  tpsr : Nat
  tbcr0 : Nat
  tbcr1 : Nat

/-- Modelled from the spec: `byte-count = (TBCR1<<8) | TBCR0` (§4.5). -/
def txByteCount (s : TxState) : Nat := (s.tbcr1 <<< 8) ||| s.tbcr0

/-- Modelled from the spec: transmit failure — "sets ISR transmit-error,
raises IRQ if unmasked, and self-clears TXP" (§4.5). -/
def txFail (s : TxState) : TxState :=
  { s with isr := s.isr ||| VDB.ISR_TXE, cr := VDB.andNot s.cr VDB.CR_TXP }

/-- Modelled from the spec: transmit success — "copy byte-count bytes from
RAM[TPSR*256..] to the host interface, set ISR transmit-ok, raise IRQ if
unmasked" with the self-clearing TXP bit (§4.5). -/
def txOk (s : TxState) : TxState :=
  { s with isr := s.isr ||| VDB.ISR_PTX, cr := VDB.andNot s.cr VDB.CR_TXP }

/-- Modelled from the spec: the transmit path of §4.5.  `hostOk` is the result
of the host-interface write (the mock host of the tests always succeeds).
Returns the new state, the list of host-interface writes performed, and
whether the NIC IRQ was raised. -/
def transmit (s : TxState) (hostOk : Bool) : TxState × List (List Nat) × Bool :=
  let bc := txByteCount s
  if bc < 60 ∨ bc > 1514 then
    (txFail s, [], s.imr.testBit 3)
  else if s.tpsr * 256 + bc > specRAMSize then
    (txFail s, [], s.imr.testBit 3)
  else
    let pkt := (List.range bc).map (fun i => s.ram (s.tpsr * 256 + i))
    if hostOk then (txOk s, [pkt], s.imr.testBit 1)
    else (txFail s, [pkt], s.imr.testBit 3)

/-- Modelled from the spec: a command-register write (§4.5 "Command register"
items 1–4; the remote-DMA arming of item 5 does not touch this state).  The
page-select bits take effect by storing the written value; STOP enters reset;
START clears the reset flag; TXP while started initiates a transmit. -/
def writeCR (s : TxState) (val : Nat) (hostOk : Bool) :
    TxState × List (List Nat) × Bool :=
  let s := { s with cr := val }
  if (val &&& VDB.CR_STP) ≠ 0 then
    ({ s with isr := s.isr ||| VDB.ISR_RST,
              cr := VDB.andNot s.cr (VDB.CR_STA ||| VDB.CR_TXP) },
     [], s.imr.testBit 7)
  else
    let s := if (val &&& VDB.CR_STA) ≠ 0 then
        { s with isr := VDB.andNot s.isr VDB.ISR_RST }
      else s
    if (val &&& VDB.CR_TXP) ≠ 0 ∧ (val &&& VDB.CR_STA) ≠ 0 then
      transmit s hostOk
    else (s, [], false)

end SpecNIC

namespace VDB

/-! ## Concrete scenario states used by the theorems below. -/

/-- `NE2000_DEFAULT_MAC = 00:00:00:AA:BB:CC` (`rtc.go` line 431). -/
def NE2000_DEFAULT_MAC : Fin 6 → Nat :=
  fun i => [0x00, 0x00, 0x00, 0xAA, 0xBB, 0xCC].getD i.val 0

/-- The MAC `AA:BB:CC:DD:EE:FF` of spec seed scenario 2. -/
def macC5 : Fin 6 → Nat :=
  fun i => [0xAA, 0xBB, 0xCC, 0xDD, 0xEE, 0xFF].getD i.val 0

/-- Seed scenario 2 driven through `HandleIO`: `CR = {STOP, abort-DMA}`,
`RSAR = 0`, `RBCR = 6`, remote-read command, then six byte INs on the ASIC
data port.  Returns the six bytes and the final device state. -/
def c5run : Except String (List Nat × NE2000) := do
  let d := NewNE2000Device macC5
  let (d, _) ← HandleIO d 0x300 IODirectionOut 1 (CR_STP ||| CR_RD2)
  let (d, _) ← HandleIO d 0x308 IODirectionOut 1 0x00
  let (d, _) ← HandleIO d 0x309 IODirectionOut 1 0x00
  let (d, _) ← HandleIO d 0x30A IODirectionOut 1 0x06
  let (d, _) ← HandleIO d 0x30B IODirectionOut 1 0x00
  let (d, _) ← HandleIO d 0x300 IODirectionOut 1 (CR_RD1 ||| CR_STP)
  let (d, b1) ← HandleIO d 0x310 IODirectionIn 1 0
  let (d, b2) ← HandleIO d 0x310 IODirectionIn 1 0
  let (d, b3) ← HandleIO d 0x310 IODirectionIn 1 0
  let (d, b4) ← HandleIO d 0x310 IODirectionIn 1 0
  let (d, b5) ← HandleIO d 0x310 IODirectionIn 1 0
  let (d, b6) ← HandleIO d 0x310 IODirectionIn 1 0
  return ([b1, b2, b3, b4, b5, b6], d)

/-- NE2000 device with `ISR = PTX | RXE` for spec seed scenario 6. -/
def c8dev : NE2000 := { NewNE2000Device NE2000_DEFAULT_MAC with isr := ISR_PTX ||| ISR_RXE }

/-- Seed scenario 6: from `ISR = PTX | RXE`, write PTX to the ISR offset, read
it back, write RXE, read again; returns the two read-back bytes. -/
def c8run : Except String (Nat × Nat) := do
  let (d, _) ← HandleIO c8dev 0x307 IODirectionOut 1 ISR_PTX
  let (d, r1) ← HandleIO d 0x307 IODirectionIn 1 0
  let (d, _) ← HandleIO d 0x307 IODirectionOut 1 ISR_RXE
  let (_, r2) ← HandleIO d 0x307 IODirectionIn 1 0
  return (r1, r2)

/-- Spec seed scenario 3, start state: initialized pair, nothing masked,
lines 0, 3, 10 raised in that order. -/
def c2start (mo so : Nat) : PICDevice :=
  RaiseIRQ (RaiseIRQ (RaiseIRQ (initPair mo so) 0) 3) 10

/-- First vector acquisition of scenario 3. -/
def c2v1 (mo so : Nat) : Nat × PICDevice := GetInterruptVector (c2start mo so)

/-- Second vector acquisition of scenario 3. -/
def c2v2 (mo so : Nat) : Nat × PICDevice := GetInterruptVector (c2v1 mo so).2

/-- Third vector acquisition of scenario 3. -/
def c2v3 (mo so : Nat) : Nat × PICDevice := GetInterruptVector (c2v2 mo so).2

/-- A reachable PIC state separating `HasPendingInterrupts` from the spec's
pending formula: initialize, raise line 10 (sets slave IRR bit 2 and master
IRR bit 2), then mask the whole slave IMR. -/
def c6cex : PICDevice := slaveData (RaiseIRQ (initPair 8 0x70) 10) 0xFF

/-- A reachable PIC state with master vector offset 0 and line 0 pending. -/
def c10dev : PICDevice := RaiseIRQ (initPair 0 0x70) 0

/-- Master chip right after ICW1 `0x11` (cascade, ICW4 needed): counter 1. -/
def c4pc : PICController := (masterCmd NewPICDevice 0x11).master

/-- PIT with counter 0 holding `0xBEEF`, used to witness the latch theorem. -/
def pitW : PITDevice :=
  let p := NewPITDevice
  let c1 := { p.counters 0 with value := 0xBEEF }
  { p with counters := Function.update p.counters 0 c1 }

/-- Chip-state abbreviation used to spell out intermediate states of the
vector-fetch scenario (mode flags `0x01`, counters idle). -/
def mkChip (m : Bool) (off imr irr isr : Nat) : PICController :=
  { isMaster := m, offset := off, imr := imr, irr := irr, isr := isr,
    icwCount := 0, expectOCW := false, modeFlags := 1, sfnm := false,
    autoEOI := false, readRegSelect := 0 }

/-- The register-file invariant of NE2000 power-on/reset checked by the
corresponding claim (with the page-stop value the code actually sets). -/
def resetSpec (d : NE2000) : Prop :=
  (d.command &&& CR_STP) ≠ 0 ∧ (d.command &&& (CR_PS0 ||| CR_PS1)) >>> 6 = 0 ∧
  d.isr = ISR_RST ∧ d.imr = 0 ∧ d.pageStart = 0x46 ∧ d.pageStop = 0x40 ∧
  d.boundary = d.pageStart ∧ d.currPage = d.pageStart ∧ d.txPageStart = 0x40

end VDB

namespace SpecNIC

/-- Concrete transmit-engine state used to witness the transmit theorem:
started NIC, in-range byte count 64 at TPSR `0x40`. -/
def txW : TxState :=
  { ram := fun a => a % 251, cr := VDB.CR_STA, isr := 0, imr := 0xFF,
    tpsr := 0x40, tbcr0 := 64, tbcr1 := 0 }

end SpecNIC

/-! ## Helper lemmas. -/

/-- Bit-level reading of `andNot` on byte operands, for bit positions below 8. -/
theorem testBit_andNot (x y i : Nat) (hi : i < 8) :
    (VDB.andNot x y).testBit i = (x.testBit i && !y.testBit i) := by
  have h255 : Nat.testBit 255 i = true := by
    interval_cases i <;> decide
  simp [VDB.andNot, Nat.testBit_land, Nat.testBit_xor, h255, Bool.xor_comm]

/-- On the freshly constructed PIC pair every line is masked, so `RaiseIRQ`
is the identity. -/
theorem raiseIRQ_fresh (l : Nat) : VDB.RaiseIRQ VDB.NewPICDevice l = VDB.NewPICDevice := by
  by_cases h1 : l < 8
  · have hb : Nat.testBit 255 l = true := by interval_cases l <;> decide
    simp [VDB.RaiseIRQ, VDB.NewPICDevice, h1, hb]
  · by_cases h2 : l < 16
    · have hb : Nat.testBit 255 (l - 8) = true := by interval_cases l <;> decide
      simp [VDB.RaiseIRQ, VDB.NewPICDevice, h1, h2, hb]
    · simp [VDB.RaiseIRQ, h1, h2]

/-- Folding any raise sequence over the fresh pair leaves it unchanged. -/
theorem foldl_raiseIRQ_fresh (ls : List Nat) :
    ls.foldl VDB.RaiseIRQ VDB.NewPICDevice = VDB.NewPICDevice := by
  induction ls with
  | nil => rfl
  | cons a as ih => rw [List.foldl_cons, raiseIRQ_fresh, ih]

/-- Counter-port writes do not disturb a counter that sits in LATCH read mode,
nor, for other counters, its latch state. -/
theorem writeCounterPort_preserves (t : VDB.PITDevice) (j : Fin 3) (v : Nat) (i : Fin 3)
    (hc : (t.counters i).rwMode = VDB.PIT_RW_LATCH) :
    (VDB.writeCounterPort t j v).counters i = t.counters i ∧
    (VDB.writeCounterPort t j v).readWriteLatch i = t.readWriteLatch i := by
  by_cases hij : j = i
  · subst hij
    simp [VDB.writeCounterPort, hc]
  · have hij2 : i ≠ j := fun h => hij h.symm
    unfold VDB.writeCounterPort
    by_cases h1 : (t.counters j).rwMode = VDB.PIT_RW_LATCH
    · simp [h1]
    · by_cases h2 : (t.counters j).rwMode = VDB.PIT_RW_LSB
      · simp [VDB.PIT_RW_LATCH, VDB.PIT_RW_LSB, h1, h2, Function.update_noteq hij2]
      · by_cases h3 : (t.counters j).rwMode = VDB.PIT_RW_MSB
        · simp [VDB.PIT_RW_LATCH, VDB.PIT_RW_LSB, VDB.PIT_RW_MSB, h1, h2, h3,
            Function.update_noteq hij2]
        · by_cases h4 : (t.counters j).rwMode = VDB.PIT_RW_LOHI
          · by_cases h5 : t.readWriteLatch j = 0 <;>
              simp [VDB.PIT_RW_LATCH, VDB.PIT_RW_LSB, VDB.PIT_RW_MSB, VDB.PIT_RW_LOHI,
                h1, h2, h3, h4, h5, Function.update_noteq hij2]
          · simp [h1, h2, h3, h4]

/-- The fold of arbitrary counter-port writes preserves a latched counter. -/
theorem pit_fold_preserves (i : Fin 3) (ws : List (Fin 3 × Nat)) :
    ∀ t : VDB.PITDevice, (t.counters i).rwMode = VDB.PIT_RW_LATCH →
      ((ws.foldl (fun t w => VDB.writeCounterPort t w.1 w.2) t).counters i = t.counters i ∧
       (ws.foldl (fun t w => VDB.writeCounterPort t w.1 w.2) t).readWriteLatch i =
         t.readWriteLatch i) := by
  induction ws with
  | nil => exact fun t _ => ⟨rfl, rfl⟩
  | cons w ws ih =>
    intro t hc
    have h1 := writeCounterPort_preserves t w.1 w.2 i hc
    have h2 := ih (VDB.writeCounterPort t w.1 w.2) (by rw [h1.1]; exact hc)
    rw [List.foldl_cons]
    exact ⟨h2.1.trans h1.1, h2.2.trans h1.2⟩

/-- An in-range, in-bounds transmit performs exactly one host write of the
packet extracted from RAM and reports transmit-ok. -/
theorem transmit_in_range (s : SpecNIC.TxState)
    (h60 : 60 ≤ SpecNIC.txByteCount s) (h1514 : SpecNIC.txByteCount s ≤ 1514)
    (hb : s.tpsr * 256 + SpecNIC.txByteCount s ≤ SpecNIC.specRAMSize) :
    SpecNIC.transmit s true =
      (SpecNIC.txOk s,
       [(List.range (SpecNIC.txByteCount s)).map (fun k => s.ram (s.tpsr * 256 + k))],
       s.imr.testBit 1) := by
  unfold SpecNIC.transmit
  rw [if_neg (by omega), if_neg (by omega)]
  rfl

/-- An out-of-range or out-of-bounds transmit performs no host write and
reports transmit-error. -/
theorem transmit_out_of_range (s : SpecNIC.TxState) (hostOk : Bool)
    (h : SpecNIC.txByteCount s < 60 ∨ 1514 < SpecNIC.txByteCount s ∨
      SpecNIC.specRAMSize < s.tpsr * 256 + SpecNIC.txByteCount s) :
    SpecNIC.transmit s hostOk = (SpecNIC.txFail s, [], s.imr.testBit 3) := by
  unfold SpecNIC.transmit
  by_cases hbc : SpecNIC.txByteCount s < 60 ∨ SpecNIC.txByteCount s > 1514
  · rw [if_pos hbc]
  · rw [if_neg hbc, if_pos (by omega)]

/-- A CR write with TXP and START set and STOP clear runs the transmit path on
the state with the written CR and the reset flag cleared. -/
theorem writeCR_started_txp (s : SpecNIC.TxState) (v : Nat) (hostOk : Bool)
    (hTXP : (v &&& VDB.CR_TXP) ≠ 0) (hSTP : (v &&& VDB.CR_STP) = 0)
    (hSTA : (v &&& VDB.CR_STA) ≠ 0) :
    SpecNIC.writeCR s v hostOk =
      SpecNIC.transmit
        { s with cr := v, isr := VDB.andNot s.isr VDB.ISR_RST } hostOk := by
  unfold SpecNIC.writeCR
  rw [if_neg (by simp [hSTP]), if_pos hSTA, if_pos ⟨hTXP, hSTA⟩]

/-! ## Claim theorems. -/

/-- C1: when the NE2000 command register is written with TXP set while the NIC
is started, every byte-count `(TBCR1<<8)|TBCR0` in `[60, 1514]` with
`TPSR*256 + byte-count` within RAM produces exactly one host-interface write
of `byte-count` bytes taken from `RAM[TPSR*256..]` and sets ISR transmit-ok;
every byte-count outside `[60, 1514]` or out-of-bounds TPSR produces zero
host-interface writes and sets ISR transmit-error. -/
theorem C1_transmit_path (s : SpecNIC.TxState) (v : Nat)
    (hTXP : (v &&& VDB.CR_TXP) ≠ 0) (hSTP : (v &&& VDB.CR_STP) = 0)
    (hSTA : (v &&& VDB.CR_STA) ≠ 0) :
    (60 ≤ SpecNIC.txByteCount s → SpecNIC.txByteCount s ≤ 1514 →
      s.tpsr * 256 + SpecNIC.txByteCount s ≤ SpecNIC.specRAMSize →
      (SpecNIC.writeCR s v true).2.1 =
        [(List.range (SpecNIC.txByteCount s)).map (fun k => s.ram (s.tpsr * 256 + k))] ∧
      (SpecNIC.writeCR s v true).1.isr.testBit 1 = true) ∧
    (SpecNIC.txByteCount s < 60 ∨ 1514 < SpecNIC.txByteCount s ∨
        SpecNIC.specRAMSize < s.tpsr * 256 + SpecNIC.txByteCount s →
      (SpecNIC.writeCR s v true).2.1 = [] ∧
      (SpecNIC.writeCR s v true).1.isr.testBit 3 = true) := by
  rw [writeCR_started_txp s v true hTXP hSTP hSTA]
  constructor
  · intro h60 h1514 hb
    rw [transmit_in_range { s with cr := v, isr := VDB.andNot s.isr VDB.ISR_RST }
      h60 h1514 hb]
    refine ⟨rfl, ?_⟩
    show ((VDB.andNot s.isr VDB.ISR_RST) ||| VDB.ISR_PTX).testBit 1 = true
    rw [Nat.testBit_lor]
    have h2 : Nat.testBit VDB.ISR_PTX 1 = true := by decide
    rw [h2, Bool.or_true]
  · intro hbad
    rw [transmit_out_of_range { s with cr := v, isr := VDB.andNot s.isr VDB.ISR_RST }
      true hbad]
    refine ⟨rfl, ?_⟩
    show ((VDB.andNot s.isr VDB.ISR_RST) ||| VDB.ISR_TXE).testBit 3 = true
    rw [Nat.testBit_lor]
    have h2 : Nat.testBit VDB.ISR_TXE 3 = true := by decide
    rw [h2, Bool.or_true]

/-- C1 witness: a started NIC with byte-count 64 at TPSR `0x40` performs one
host write of those 64 RAM bytes and sets transmit-ok. -/
theorem C1_transmit_path_witness :
    ((6 &&& VDB.CR_TXP) ≠ 0) ∧ ((6 &&& VDB.CR_STP) = 0) ∧ ((6 &&& VDB.CR_STA) ≠ 0) ∧
    ((SpecNIC.writeCR SpecNIC.txW 6 true).2.1 =
      [(List.range (SpecNIC.txByteCount SpecNIC.txW)).map
        (fun k => SpecNIC.txW.ram (SpecNIC.txW.tpsr * 256 + k))] ∧
     (SpecNIC.writeCR SpecNIC.txW 6 true).1.isr.testBit 1 = true) :=
  ⟨by decide, by decide, by decide,
    (C1_transmit_path SpecNIC.txW 6 (by decide) (by decide) (by decide)).1
      (by decide) (by decide) (by decide)⟩

/-- C2 (amended): with IMRs 0 and auto-EOI off, raising lines 0, 3, 10 and
acquiring three vectors returns `master.offset+0`, `(master.offset+3) % 256`,
`(slave.offset+2) % 256`; after the third acquisition the master ISR is
`0b00001101` (bits 0, 2 and 3: IR3 is still in service, auto-EOI being off)
and the slave ISR is `0b00000100`. -/
theorem C2_vector_fetch_with_cascade (mo so : Nat) (hmo : mo < 256) :
    (VDB.c2v1 mo so).1 = mo ∧
    (VDB.c2v2 mo so).1 = (mo + 3) % 256 ∧
    (VDB.c2v3 mo so).1 = (so + 2) % 256 ∧
    (VDB.c2v3 mo so).2.master.isr = 0b00001101 ∧
    (VDB.c2v3 mo so).2.slave.isr = 0b00000100 := by
  have g1 : ((0x11 : Nat) &&& VDB.PIC_ICW1_INIT) = 16 := by decide
  have g2 : ((0x11 : Nat) &&&
      (VDB.PIC_ICW1_LTIM ||| VDB.PIC_ICW1_SNGL ||| VDB.PIC_ICW1_IC4)) = 1 := by decide
  have g3 : ((1 : Nat) &&& VDB.PIC_ICW1_SNGL) = 0 := by decide
  have g4 : ((1 : Nat) &&& VDB.PIC_ICW1_IC4) = 1 := by decide
  have g5 : ((1 : Nat) ||| (0x01 : Nat)) = 1 := by decide
  have g6 : ((0x01 : Nat) &&& VDB.PIC_ICW4_AEOI) = 0 := by decide
  have g7 : ((0x01 : Nat) &&& VDB.PIC_ICW4_SFNM) = 0 := by decide
  have e0 : VDB.c2start mo so =
      { master := VDB.mkChip true mo 0 13 0, slave := VDB.mkChip false so 0 4 0 } := by
    have r1 : ((0 : Nat) ||| (1 <<< 0)) = 1 := by decide
    have r2 : ((1 : Nat) ||| (1 <<< 3)) = 9 := by decide
    have r3 : ((0 : Nat) ||| (1 <<< 2)) = 4 := by decide
    have r4 : ((9 : Nat) ||| (1 <<< 2)) = 13 := by decide
    simp [VDB.c2start, VDB.initPair, VDB.NewPICDevice, VDB.masterCmd, VDB.slaveCmd,
      VDB.masterData, VDB.slaveData, VDB.writeCommandPort, VDB.writeDataPort,
      VDB.RaiseIRQ, VDB.PIC_MASTER_SLAVE_IRQ, VDB.mkChip, g1, g2, g3, g4, g5, g6, g7,
      r1, r2, r3, r4]
  have f1 : (List.range 8).find? (fun i => decide (i ≠ VDB.PIC_MASTER_SLAVE_IRQ) &&
      (VDB.andNot 13 0).testBit i && !Nat.testBit 0 i) = some 0 := by decide
  have e1 : VDB.c2v1 mo so = ((mo + 0) % 256,
      { master := VDB.mkChip true mo 0 12 1, slave := VDB.mkChip false so 0 4 0 }) := by
    have a1 : ((0 : Nat) ||| (1 <<< 0)) = 1 := by decide
    have a2 : VDB.andNot 13 (1 <<< 0) = 12 := by decide
    rw [VDB.c2v1, e0]
    unfold VDB.GetInterruptVector
    dsimp only [VDB.mkChip]
    rw [f1]
    simp [VDB.mkChip, a1, a2]
    all_goals decide
  have f2 : (List.range 8).find? (fun i => decide (i ≠ VDB.PIC_MASTER_SLAVE_IRQ) &&
      (VDB.andNot 12 0).testBit i && !Nat.testBit 1 i) = some 3 := by decide
  have e2 : VDB.c2v2 mo so = ((mo + 3) % 256,
      { master := VDB.mkChip true mo 0 4 9, slave := VDB.mkChip false so 0 4 0 }) := by
    have a1 : ((1 : Nat) ||| (1 <<< 3)) = 9 := by decide
    have a2 : VDB.andNot 12 (1 <<< 3) = 4 := by decide
    rw [VDB.c2v2, e1]
    unfold VDB.GetInterruptVector
    dsimp only [VDB.mkChip]
    rw [f2]
    simp [VDB.mkChip, a1, a2]
    all_goals decide
  have f3 : (List.range 8).find? (fun i => decide (i ≠ VDB.PIC_MASTER_SLAVE_IRQ) &&
      (VDB.andNot 4 0).testBit i && !Nat.testBit 9 i) = none := by decide
  have f4 : (List.range 8).find? (fun i =>
      (VDB.andNot 4 0).testBit i && !Nat.testBit 0 i) = some 2 := by decide
  have e3 : VDB.c2v3 mo so = ((so + 2) % 256,
      { master := VDB.mkChip true mo 0 0 13, slave := VDB.mkChip false so 0 0 4 }) := by
    have b1 : VDB.andNot (VDB.andNot 4 4) 0 = 0 := by decide
    have b2 : VDB.andNot 4 (1 <<< VDB.PIC_MASTER_SLAVE_IRQ) = 0 := by decide
    have b3 : ((9 : Nat) ||| 1 <<< VDB.PIC_MASTER_SLAVE_IRQ) = 13 := by decide
    have b4 : VDB.andNot 4 4 = 0 := by decide
    have b5 : ((0 : Nat) ||| 1 <<< 2) = 4 := by decide
    have b6 : VDB.andNot 4 (1 <<< 2) = 0 := by decide
    rw [VDB.c2v3, e2]
    unfold VDB.GetInterruptVector
    dsimp only [VDB.mkChip]
    rw [f3, if_pos (by constructor <;> decide), f4]
    simp [VDB.mkChip, b1, b2, b3, b4, b5, b6]
    all_goals decide
  rw [e1, e2, e3]
  refine ⟨by omega, rfl, rfl, rfl, rfl⟩

/-- C2 witness: the scenario at master offset 8 and slave offset `0x70`. -/
theorem C2_vector_fetch_with_cascade_witness :
    (8 : Nat) < 256 ∧
    ((VDB.c2v1 8 0x70).1 = 8 ∧
     (VDB.c2v2 8 0x70).1 = (8 + 3) % 256 ∧
     (VDB.c2v3 8 0x70).1 = (0x70 + 2) % 256 ∧
     (VDB.c2v3 8 0x70).2.master.isr = 0b00001101 ∧
     (VDB.c2v3 8 0x70).2.slave.isr = 0b00000100) :=
  ⟨by decide, C2_vector_fetch_with_cascade 8 0x70 (by decide)⟩

/-- C2 counterexample: at offsets 8/`0x70` the three vectors are as claimed,
but after the third acquisition the master ISR is 13 (`0b1101`), not
`0b00000101` — the IR3 in-service bit is still set. -/
theorem C2_master_isr_is_not_0b101 :
    (VDB.c2v1 8 0x70).1 = 8 ∧ (VDB.c2v2 8 0x70).1 = 11 ∧
    (VDB.c2v3 8 0x70).1 = 0x72 ∧
    (VDB.c2v3 8 0x70).2.master.isr = 0b00001101 ∧
    (VDB.c2v3 8 0x70).2.master.isr ≠ 0b00000101 :=
  ⟨by decide, by decide, by decide, by decide, by decide⟩

/-- C3 (amended): after construction, and after a guest write of any value to
offset `0x1F`, the NE2000 registers read: CR stopped on page 0, ISR = reset
flag, IMR = 0, page-start = `0x46`, page-stop = `0x40` (the code computes
`16384 / 256`), boundary = page-start, current-page = page-start,
transmit-page-start = `0x40`. -/
theorem C3_power_on_and_reset_defaults (mac : Fin 6 → Nat) (d : VDB.NE2000) (v : Nat) :
    VDB.resetSpec (VDB.NewNE2000Device mac) ∧
    VDB.HandleIO d (0x300 + 0x1F) VDB.IODirectionOut 1 v = Except.ok (VDB.reset d, v) ∧
    VDB.resetSpec (VDB.reset d) := by
  refine ⟨⟨?_, ?_, rfl, rfl, rfl, rfl, rfl, rfl, rfl⟩, rfl,
    ⟨?_, ?_, rfl, rfl, rfl, rfl, rfl, rfl, rfl⟩⟩
  · show (VDB.CR_STP ||| VDB.CR_RD2) &&& VDB.CR_STP ≠ 0
    decide
  · show ((VDB.CR_STP ||| VDB.CR_RD2) &&& (VDB.CR_PS0 ||| VDB.CR_PS1)) >>> 6 = 0
    decide
  · show (VDB.CR_STP ||| VDB.CR_RD2) &&& VDB.CR_STP ≠ 0
    decide
  · show ((VDB.CR_STP ||| VDB.CR_RD2) &&& (VDB.CR_PS0 ||| VDB.CR_PS1)) >>> 6 = 0
    decide

/-- C3 counterexample: the constructed device's page-stop register is `0x40`
(`uint8(16384/256)`), not `0x80`. -/
theorem C3_page_stop_is_not_0x80 :
    (VDB.NewNE2000Device VDB.NE2000_DEFAULT_MAC).pageStop = 0x40 ∧
    (VDB.NewNE2000Device VDB.NE2000_DEFAULT_MAC).pageStop ≠ 0x80 :=
  ⟨by decide, by decide⟩

/-- C4 (amended): the data-port write consumed as ICW2 stores the value as the
vector offset, and moves the counter to 3 in single mode with ICW4 needed, to
0 in single mode without ICW4, and to 2 in cascade mode whether or not ICW4 is
needed (ICW3 is always expected next in cascade mode). -/
theorem C4_icw2_offset_and_counter (pc : VDB.PICController) (v : Nat)
    (h1 : pc.icwCount = 1) (h2 : pc.expectOCW = false) :
    (VDB.writeDataPort pc v).offset = v ∧
    (VDB.writeDataPort pc v).icwCount =
      (if (pc.modeFlags &&& VDB.PIC_ICW1_SNGL) ≠ 0 then
        (if (pc.modeFlags &&& VDB.PIC_ICW1_IC4) = 0 then 0 else 3)
      else 2) := by
  unfold VDB.writeDataPort
  simp only [h1, h2, Bool.false_eq_true, or_false, one_ne_zero, if_false, if_true]
  by_cases hs : (pc.modeFlags &&& VDB.PIC_ICW1_SNGL) ≠ 0
  · by_cases hi : (pc.modeFlags &&& VDB.PIC_ICW1_IC4) = 0 <;>
      simp [hs, hi]
  · simp [hs]

/-- C4 witness: the master chip right after ICW1 `0x11` (cascade, ICW4
needed) stores offset `0x40` and moves to counter 2. -/
theorem C4_icw2_offset_and_counter_witness :
    VDB.c4pc.icwCount = 1 ∧ VDB.c4pc.expectOCW = false ∧
    ((VDB.writeDataPort VDB.c4pc 0x40).offset = 0x40 ∧
     (VDB.writeDataPort VDB.c4pc 0x40).icwCount =
       (if (VDB.c4pc.modeFlags &&& VDB.PIC_ICW1_SNGL) ≠ 0 then
         (if (VDB.c4pc.modeFlags &&& VDB.PIC_ICW1_IC4) = 0 then 0 else 3)
       else 2)) :=
  ⟨by decide, by decide, C4_icw2_offset_and_counter VDB.c4pc 0x40 (by decide) (by decide)⟩

/-- C4 counterexample: after ICW1 `0x10` (cascade mode, no ICW4 needed), ICW2
moves the counter to 2 — not to 0 as the claim states for that flag
combination. -/
theorem C4_cascade_without_icw4_goes_to_2 :
    (VDB.masterData (VDB.masterCmd VDB.NewPICDevice 0x10) 0x20).master.icwCount = 2 ∧
    (VDB.masterData (VDB.masterCmd VDB.NewPICDevice 0x10) 0x20).master.icwCount ≠ 0 :=
  ⟨by decide, by decide⟩

/-- C5 (amended): the remote-DMA MAC read of seed scenario 2 returns the six
bytes `AA AA BB BB CC CC` — the PROM stores each MAC byte twice
(`prom[2i] = prom[2i+1] = mac[i]`) — and sets ISR remote-DMA-complete. -/
theorem C5_prom_mac_read_duplicated :
    (VDB.c5run.toOption.map Prod.fst) = some [0xAA, 0xAA, 0xBB, 0xBB, 0xCC, 0xCC] ∧
    (VDB.c5run.toOption.map fun r => r.2.isr.testBit 6) = some true :=
  ⟨by decide, by decide⟩

/-- C5 counterexample: the six bytes delivered by the scenario are not
`AA BB CC DD EE FF`. -/
theorem C5_bytes_are_not_plain_mac :
    (VDB.c5run.toOption.map Prod.fst) ≠ some [0xAA, 0xBB, 0xCC, 0xDD, 0xEE, 0xFF] := by
  decide

/-- C6 (amended): `HasPendingInterrupts` is true iff some master IRR bit `i`
(the cascade bit 2 included) is unmasked and not in service, or the master
cascade path is open and some slave IRR bit `j` is unmasked and not in
service. -/
theorem C6_has_pending_characterization (p : VDB.PICDevice) :
    VDB.HasPendingInterrupts p = true ↔
      ((∃ i < 8, p.master.irr.testBit i = true ∧ p.master.imr.testBit i = false ∧
          p.master.isr.testBit i = false) ∨
        (p.master.imr.testBit 2 = false ∧ p.master.isr.testBit 2 = false ∧
          ∃ j < 8, p.slave.irr.testBit j = true ∧ p.slave.imr.testBit j = false ∧
            p.slave.isr.testBit j = false)) := by
  unfold VDB.HasPendingInterrupts
  simp only [Bool.or_eq_true, decide_eq_true_eq, List.any_eq_true, List.mem_range,
    Bool.and_eq_true, Bool.not_eq_true']
  constructor
  · rintro (⟨hne, hm2, hs2, j, hj, haj, hsj⟩ | ⟨i, hi, hai, hsi⟩)
    · rw [testBit_andNot _ _ j hj, Bool.and_eq_true, Bool.not_eq_true'] at haj
      exact Or.inr ⟨hm2, hs2, j, hj, haj.1, haj.2, hsj⟩
    · rw [testBit_andNot _ _ i hi, Bool.and_eq_true, Bool.not_eq_true'] at hai
      exact Or.inl ⟨i, hi, hai.1, hai.2, hsi⟩
  · rintro (⟨i, hi, hirr, himr, hisr⟩ | ⟨hm2, hs2, j, hj, hirr, himr, hisr⟩)
    · refine Or.inr ⟨i, hi, ?_, hisr⟩
      rw [testBit_andNot _ _ i hi, hirr, himr]
      rfl
    · refine Or.inl ⟨?_, hm2, hs2, j, hj, ?_, hisr⟩
      · intro h0
        have hb : (VDB.andNot p.slave.irr p.slave.imr).testBit j = true := by
          rw [testBit_andNot _ _ j hj, hirr, himr]
          rfl
        rw [h0, Nat.zero_testBit] at hb
        exact Bool.false_ne_true hb
      · rw [testBit_andNot _ _ j hj, hirr, himr]
        rfl

/-- C6 counterexample: a reachable state (initialize, raise line 10, then mask
the whole slave IMR) where `HasPendingInterrupts` is true — the master scan
accepts the cascade bit 2 — while the claim's formula, which excludes
`i = 2`, is false. -/
theorem C6_cascade_only_state_pends :
    VDB.HasPendingInterrupts VDB.c6cex = true ∧
    ¬ ((∃ i < 8, i ≠ 2 ∧ VDB.c6cex.master.irr.testBit i = true ∧
          VDB.c6cex.master.imr.testBit i = false ∧
          VDB.c6cex.master.isr.testBit i = false) ∨
        (VDB.c6cex.master.imr.testBit 2 = false ∧
          VDB.c6cex.master.isr.testBit 2 = false ∧
          ∃ j < 8, VDB.c6cex.slave.irr.testBit j = true ∧
            VDB.c6cex.slave.imr.testBit j = false ∧
            VDB.c6cex.slave.isr.testBit j = false)) :=
  ⟨by decide, by decide⟩

/-- C7: a latch command on the control port snapshots `counter.value`; the
next two reads of that counter's port return its low byte then its high byte,
regardless of any counter-port writes performed in between. -/
theorem C7_pit_latch_read (p : VDB.PITDevice) (b : Nat) (i : Fin 3)
    (ws : List (Fin 3 × Nat))
    (hsel : (b >>> 6) &&& 0x3 = i.val) (hrw : (b >>> 4) &&& 0x3 = 0) :
    (VDB.readCounterPort
        (ws.foldl (fun t w => VDB.writeCounterPort t w.1 w.2)
          (VDB.pitWriteCommandPort p b)) i).1 = (p.counters i).value &&& 0xFF ∧
    (VDB.readCounterPort
        (VDB.readCounterPort
          (ws.foldl (fun t w => VDB.writeCounterPort t w.1 w.2)
            (VDB.pitWriteCommandPort p b)) i).2 i).1 =
      ((p.counters i).value >>> 8) &&& 0xFF := by
  have hlt : (b >>> 6) &&& 0x3 < 3 := by rw [hsel]; exact i.isLt
  have hfin : (⟨(b >>> 6) &&& 0x3, hlt⟩ : Fin 3) = i := Fin.ext hsel
  have hrw2 : (b >>> 4) &&& 0x3 = VDB.PIT_RW_LATCH := hrw
  have hcmd1 : (VDB.pitWriteCommandPort p b).counters i =
      { p.counters i with latch := (p.counters i).value, rwMode := VDB.PIT_RW_LATCH } := by
    unfold VDB.pitWriteCommandPort
    rw [dif_pos hlt, if_pos hrw2]
    dsimp only
    rw [hfin]
    exact Function.update_same i _ p.counters
  have hcmd2 : (VDB.pitWriteCommandPort p b).readWriteLatch i = 0 := by
    unfold VDB.pitWriteCommandPort
    rw [dif_pos hlt, if_pos hrw2]
    dsimp only
    rw [hfin]
    exact Function.update_same i _ p.readWriteLatch
  have hfold := pit_fold_preserves i ws (VDB.pitWriteCommandPort p b) (by rw [hcmd1])
  have hfc : (ws.foldl (fun t w => VDB.writeCounterPort t w.1 w.2)
      (VDB.pitWriteCommandPort p b)).counters i =
      { p.counters i with latch := (p.counters i).value, rwMode := VDB.PIT_RW_LATCH } := by
    rw [hfold.1, hcmd1]
  have hfl : (ws.foldl (fun t w => VDB.writeCounterPort t w.1 w.2)
      (VDB.pitWriteCommandPort p b)).readWriteLatch i = 0 := by
    rw [hfold.2, hcmd2]
  constructor
  · unfold VDB.readCounterPort
    rw [hfc, hfl]
    simp
  · unfold VDB.readCounterPort
    rw [hfc, hfl]
    simp [hfc]

/-- C7 witness: counter 0 holding `0xBEEF`, latch command `0x00`, two
intervening counter-port writes; the reads return `0xEF` then `0xBE`. -/
theorem C7_pit_latch_read_witness :
    ((0 : Nat) >>> 6) &&& 0x3 = (0 : Fin 3).val ∧ ((0 : Nat) >>> 4) &&& 0x3 = 0 ∧
    ((VDB.readCounterPort
        ([((0 : Fin 3), 0x12), ((1 : Fin 3), 0x34)].foldl
          (fun t w => VDB.writeCounterPort t w.1 w.2)
          (VDB.pitWriteCommandPort VDB.pitW 0)) 0).1 =
        (VDB.pitW.counters 0).value &&& 0xFF ∧
     (VDB.readCounterPort
        (VDB.readCounterPort
          ([((0 : Fin 3), 0x12), ((1 : Fin 3), 0x34)].foldl
            (fun t w => VDB.writeCounterPort t w.1 w.2)
            (VDB.pitWriteCommandPort VDB.pitW 0)) 0).2 0).1 =
        ((VDB.pitW.counters 0).value >>> 8) &&& 0xFF) :=
  ⟨by decide, by decide,
    C7_pit_latch_read VDB.pitW 0 0 [((0 : Fin 3), 0x12), ((1 : Fin 3), 0x34)]
      (by decide) (by decide)⟩

/-- C8: a guest write of `w` to the Page-0 ISR offset replaces ISR by
`ISR AND NOT w` (bitwise, on all byte positions), and the seed scenario —
from `ISR = PTX | RXE`, write PTX, read back RXE, write RXE, read back 0 —
behaves as claimed. -/
theorem C8_isr_write_one_to_clear (d : VDB.NE2000) (w : Nat)
    (hpage : (d.command &&& (VDB.CR_PS0 ||| VDB.CR_PS1)) >>> 6 = 0) :
    VDB.HandleIO d 0x307 VDB.IODirectionOut 1 w =
      Except.ok ({ d with isr := VDB.andNot d.isr w }, w) ∧
    (∀ k < 8, (VDB.andNot d.isr w).testBit k = (d.isr.testBit k && !w.testBit k)) ∧
    VDB.c8run.toOption = some (VDB.ISR_RXE, 0) := by
  refine ⟨?_, fun k hk => testBit_andNot _ _ k hk, by decide⟩
  have hoff : (775 : Nat) - VDB.NE2000_BASE_PORT = 7 := by decide
  unfold VDB.HandleIO VDB.handlePage0IO
  simp [hoff, hpage, VDB.IODirectionIn, VDB.IODirectionOut, VDB.NE2000_ASIC_OFFSET_RESET,
    VDB.NE2000_ASIC_OFFSET_DATA]

/-- C8 witness: the law applied at the scenario's start state. -/
theorem C8_isr_write_one_to_clear_witness :
    (VDB.c8dev.command &&& (VDB.CR_PS0 ||| VDB.CR_PS1)) >>> 6 = 0 ∧
    (VDB.HandleIO VDB.c8dev 0x307 VDB.IODirectionOut 1 VDB.ISR_PTX =
      Except.ok ({ VDB.c8dev with isr := VDB.andNot VDB.c8dev.isr VDB.ISR_PTX },
        VDB.ISR_PTX) ∧
     (∀ k < 8, (VDB.andNot VDB.c8dev.isr VDB.ISR_PTX).testBit k =
        (VDB.c8dev.isr.testBit k && !VDB.ISR_PTX.testBit k)) ∧
     VDB.c8run.toOption = some (VDB.ISR_RXE, 0)) :=
  ⟨by decide, C8_isr_write_one_to_clear VDB.c8dev VDB.ISR_PTX (by decide)⟩

/-- C9: a freshly constructed PICDevice masks every line (both IMRs `0xFF`),
so any sequence of `RaiseIRQ` calls leaves both IRRs at 0 and
`HasPendingInterrupts` false. -/
theorem C9_fresh_pic_fully_masked :
    VDB.NewPICDevice.master.imr = 0xFF ∧ VDB.NewPICDevice.slave.imr = 0xFF ∧
    ∀ ls : List Nat,
      (ls.foldl VDB.RaiseIRQ VDB.NewPICDevice).master.irr = 0 ∧
      (ls.foldl VDB.RaiseIRQ VDB.NewPICDevice).slave.irr = 0 ∧
      VDB.HasPendingInterrupts (ls.foldl VDB.RaiseIRQ VDB.NewPICDevice) = false := by
  refine ⟨rfl, rfl, fun ls => ?_⟩
  rw [foldl_raiseIRQ_fresh]
  exact ⟨rfl, rfl, by decide⟩

/-- C10: with master vector offset 0 and master IR0 pending (unmasked, not in
service, auto-EOI off), `GetInterruptVector` returns 0,
`CheckForPendingInterrupts` injects nothing, and yet the acquisition has
cleared IRR bit 0 and set ISR bit 0. -/
theorem C10_zero_vector_suppressed (p : VDB.PICDevice)
    (hoff : p.master.offset = 0) (hirr : p.master.irr.testBit 0 = true)
    (himr : p.master.imr.testBit 0 = false) (hisr : p.master.isr.testBit 0 = false)
    (haeoi : p.master.autoEOI = false) :
    (VDB.CheckForPendingInterrupts p).1 = none ∧
    (VDB.GetInterruptVector p).1 = 0 ∧
    (VDB.CheckForPendingInterrupts p).2.master.irr.testBit 0 = false ∧
    (VDB.CheckForPendingInterrupts p).2.master.isr.testBit 0 = true := by
  have hb0 : (VDB.andNot p.master.irr p.master.imr).testBit 0 = true := by
    rw [testBit_andNot _ _ 0 (by omega), hirr, himr]
    rfl
  have hfind : (List.range 8).find?
      (fun i => decide (i ≠ VDB.PIC_MASTER_SLAVE_IRQ) &&
        (VDB.andNot p.master.irr p.master.imr).testBit i &&
        !p.master.isr.testBit i) = some 0 := by
    have hrange : List.range 8 = [0, 1, 2, 3, 4, 5, 6, 7] := rfl
    rw [hrange]
    simp [List.find?, hb0, hisr, VDB.PIC_MASTER_SLAVE_IRQ]
  have hgv : VDB.GetInterruptVector p =
      ((p.master.offset + 0) % 256,
       { p with master := { p.master with
           isr := p.master.isr ||| (1 <<< 0),
           irr := VDB.andNot (p.master.irr) (1 <<< 0) } }) := by
    unfold VDB.GetInterruptVector
    dsimp only
    rw [hfind]
    simp [haeoi]
  have hv0 : (p.master.offset + 0) % 256 = 0 := by rw [hoff]
  have hpend : VDB.HasPendingInterrupts p = true := by
    unfold VDB.HasPendingInterrupts
    simp only [Bool.or_eq_true, List.any_eq_true, List.mem_range]
    exact Or.inr ⟨0, by omega, by rw [Bool.and_eq_true, hb0, Bool.not_eq_true', hisr]; exact ⟨rfl, rfl⟩⟩
  have hcp : VDB.CheckForPendingInterrupts p = (none,
      { p with master := { p.master with
          isr := p.master.isr ||| (1 <<< 0),
          irr := VDB.andNot (p.master.irr) (1 <<< 0) } }) := by
    unfold VDB.CheckForPendingInterrupts
    rw [hpend, if_pos rfl]
    rw [hgv]
    simp [hoff]
  refine ⟨by rw [hcp], by rw [hgv, hv0], ?_, ?_⟩
  · rw [hcp]
    show (VDB.andNot p.master.irr (1 <<< 0)).testBit 0 = false
    rw [testBit_andNot _ _ 0 (by omega), hirr]
    rfl
  · rw [hcp]
    show (p.master.isr ||| (1 <<< 0)).testBit 0 = true
    rw [Nat.testBit_lor, hisr]
    rfl

/-- C10 witness: the initialized pair with master offset 0 and line 0 raised. -/
theorem C10_zero_vector_suppressed_witness :
    VDB.c10dev.master.offset = 0 ∧ VDB.c10dev.master.irr.testBit 0 = true ∧
    VDB.c10dev.master.imr.testBit 0 = false ∧
    VDB.c10dev.master.isr.testBit 0 = false ∧
    VDB.c10dev.master.autoEOI = false ∧
    ((VDB.CheckForPendingInterrupts VDB.c10dev).1 = none ∧
     (VDB.GetInterruptVector VDB.c10dev).1 = 0 ∧
     (VDB.CheckForPendingInterrupts VDB.c10dev).2.master.irr.testBit 0 = false ∧
     (VDB.CheckForPendingInterrupts VDB.c10dev).2.master.isr.testBit 0 = true) :=
  ⟨by decide, by decide, by decide, by decide, by decide,
    C10_zero_vector_suppressed VDB.c10dev (by decide) (by decide) (by decide)
      (by decide) (by decide)⟩
